import Mathlib

/-!
Shallow embedding of the milezup-backend booking core.

Sources embedded:
- `src/src/routes/bookings.js` : POST /api/bookings (authenticated create),
  POST /api/bookings/guest (guest create, guest-identity upsert).
- `src/src/models/Car.js` : car schema (pricePerDay, isAvailable) and booking
  schema (status enum with default `pending`, totalDays recomputation hook).
- `src/unnamed/part_000` : admin routes (PUT /api/admin/bookings/:id/status)
  and car routes (GET /api/cars/:id/availability).

Modelling conventions: JS `Date` values are epoch milliseconds, embedded as
`Int` (JS date comparison coerces to the numeric timestamp).  MongoDB ObjectIds
become `Nat`.  Each route handler becomes a pure function from an explicit
database value `DB` to a result; `Except ApiError` carries the distinct
JSON error responses of the handler.  Request-body shape validation done by
express-validator (ISO-8601 parsing, non-empty fields) is outside the
embedding: handlers receive already-parsed values.
-/

namespace Milezup

/-- Booking status enum of `bookingSchema` (`src/src/models/Car.js` line 118). -/
inductive Status
  | pending
  | confirmed
  | active
  | completed
  | cancelled
deriving DecidableEq

/-- The fields of a Car document the booking core reads
(`src/src/models/Car.js` lines 30-34 and 62-65). -/
structure Car where
  id : Nat
  pricePerDay : Int
  isAvailable : Bool
deriving DecidableEq

/-- The fields of a Booking document the booking core reads and writes
(`src/src/models/Car.js` lines 88-153, booking schema). -/
structure Booking where
  id : Nat
  userId : Nat
  carId : Nat
  startDate : Int
  endDate : Int
  totalDays : Int
  totalAmount : Int
  status : Status
  isGuestBooking : Bool
deriving DecidableEq

/-- The fields of a User document used by the guest-identity upsert
(`src/src/routes/bookings.js` lines 292-307).  The User model file is not in
the sources; these fields are the ones the bookings route reads and writes. -/
structure User where
  id : Nat
  name : String
  email : String
  phone : String
  isGuest : Bool
deriving DecidableEq

/-- The persistent store (MongoDB collections), with the id counters used to
mint fresh `_id`s for created documents. -/
structure DB where
  cars : List Car
  users : List User
  bookings : List Booking
  nextUserId : Nat
  nextBookingId : Nat
deriving DecidableEq

/-- The distinct error responses of the embedded handlers.  `startNotFuture`
and `endNotAfterStart` are the two 400 responses of date validation;
`serverError` is the catch-all 500 handler. -/
inductive ApiError
  | validationFailed
  | startNotFuture
  | endNotAfterStart
  | carNotFound
  | carNotAvailable
  | datesConflict
  | bookingNotFound
  | serverError
deriving DecidableEq

/-- `1000 * 3600 * 24`, the divisor in the totalDays computation
(`src/src/routes/bookings.js` line 87). -/
def msPerDay : Int := 1000 * 3600 * 24

/-- `Math.ceil (a / b)` for integer `a` and positive integer `b`:
JS `Math.ceil x = -⌊-x⌋`, and `Int.ediv` is floor division for positive
divisors. -/
def jsCeilDiv (a b : Int) : Int := -(Int.ediv (-a) b)

/-- The date-range overlap condition of the conflict queries
(`src/src/routes/bookings.js` lines 71-76 and 272-277, `src/unnamed/part_000`
lines 337-342): a stored range `[s1,e1]` matches a candidate `[s2,e2]` iff
`startDate ≤ end AND endDate ≥ start`, i.e. `s1 ≤ e2 && e1 ≥ s2`. -/
def overlaps (s1 e1 s2 e2 : Int) : Bool :=
  decide (s1 ≤ e2) && decide (e1 ≥ s2)

/-- Blocking statuses of the authenticated-booking conflict query
(`src/src/routes/bookings.js` line 70) and of the availability endpoint
(`src/unnamed/part_000` line 336): `['confirmed', 'active']`. -/
def blockingAuth : List Status := [Status.confirmed, Status.active]

/-- Blocking statuses of the guest-booking conflict query
(`src/src/routes/bookings.js` line 271): `['confirmed', 'active', 'pending']`. -/
def blockingGuest : List Status := [Status.confirmed, Status.active, Status.pending]

/-- The `Booking.find` conflict query shared by both create routes and the
availability endpoint: bookings of the car whose status is in the blocking
set and whose stored range overlaps the candidate range. -/
def findConflicting (db : DB) (carId : Nat) (blocking : List Status)
    (startDate endDate : Int) : List Booking :=
  db.bookings.filter fun b =>
    b.carId == carId && blocking.contains b.status &&
      overlaps b.startDate b.endDate startDate endDate

/-- `Car.findById`: MongoDB lookup by `_id`. -/
def findCar (db : DB) (carId : Nat) : Option Car :=
  db.cars.find? fun c => c.id == carId

/-- POST /api/bookings (`src/src/routes/bookings.js` lines 13-118).
Checks in source order: `start <= now`, `end <= start`, car lookup,
`!car.isAvailable`, conflict query with `blockingAuth`; then computes
`totalDays = Math.ceil((end - start) / msPerDay)` and
`totalAmount = totalDays * car.pricePerDay` and creates the booking.
The booking is created without an explicit status, so the schema default
`pending` applies; the schema pre-validate hook recomputes `totalDays`
with the identical formula, so the stored value is the one computed here.
`persistOk` models the external store acknowledging `Booking.create`
(Modelled from the spec: the Reservation store is an external collaborator;
a failed create surfaces as the 500 handler and "the write was not
acknowledged", leaving no reservation behind). -/
def createBooking (db : DB) (userId carId : Nat) (startDate endDate now : Int)
    (persistOk : Bool) : Except ApiError Booking × DB :=
  if startDate ≤ now then (Except.error ApiError.startNotFuture, db)
  else if endDate ≤ startDate then (Except.error ApiError.endNotAfterStart, db)
  else
    match findCar db carId with
    | none => (Except.error ApiError.carNotFound, db)
    | some car =>
      if !car.isAvailable then (Except.error ApiError.carNotAvailable, db)
      else if (findConflicting db carId blockingAuth startDate endDate).length > 0 then
        (Except.error ApiError.datesConflict, db)
      else
        let totalDays := jsCeilDiv (endDate - startDate) msPerDay
        let totalAmount := totalDays * car.pricePerDay
        if persistOk then
          let b : Booking :=
            { id := db.nextBookingId, userId := userId, carId := carId,
              startDate := startDate, endDate := endDate,
              totalDays := totalDays, totalAmount := totalAmount,
              status := Status.pending, isGuestBooking := false }
          (Except.ok b,
           { db with bookings := db.bookings ++ [b],
                     nextBookingId := db.nextBookingId + 1 })
        else (Except.error ApiError.serverError, db)

/-- The guest-info block of a guest booking request. -/
structure GuestInfo where
  name : String
  email : String
  phone : String
deriving DecidableEq

/-- The guest-identity upsert of POST /api/bookings/guest
(`src/src/routes/bookings.js` lines 292-307):
`User.findOne({ email, isGuest: true })`; if absent, `User.create` a guest
user; if present, overwrite its name and phone and `save()` (a by-`_id`
write-back of the modified document). -/
def upsertGuestUser (db : DB) (g : GuestInfo) : User × DB :=
  match db.users.find? (fun u => u.email == g.email && u.isGuest) with
  | none =>
    let u : User :=
      { id := db.nextUserId, name := g.name, email := g.email,
        phone := g.phone, isGuest := true }
    (u, { db with users := db.users ++ [u], nextUserId := db.nextUserId + 1 })
  | some u =>
    let u2 : User := { u with name := g.name, phone := g.phone }
    (u2, { db with users := db.users.map fun v => if v.id == u.id then u2 else v })

/-- POST /api/bookings/guest (`src/src/routes/bookings.js` lines 203-345).
Same validation and availability pipeline as `createBooking` but the conflict
query uses `blockingGuest`; then the guest-identity upsert runs, and the
booking is created with explicit `status: 'pending'` and
`isGuestBooking: true`.  The upsert happens before `Booking.create`, so a
failed create (`persistOk = false`, the 500 handler) leaves the user change
behind but no booking. -/
def createGuestBooking (db : DB) (carId : Nat) (startDate endDate now : Int)
    (g : GuestInfo) (persistOk : Bool) : Except ApiError Booking × DB :=
  if startDate ≤ now then (Except.error ApiError.startNotFuture, db)
  else if endDate ≤ startDate then (Except.error ApiError.endNotAfterStart, db)
  else
    match findCar db carId with
    | none => (Except.error ApiError.carNotFound, db)
    | some car =>
      if !car.isAvailable then (Except.error ApiError.carNotAvailable, db)
      else if (findConflicting db carId blockingGuest startDate endDate).length > 0 then
        (Except.error ApiError.datesConflict, db)
      else
        let totalDays := jsCeilDiv (endDate - startDate) msPerDay
        let totalAmount := totalDays * car.pricePerDay
        let gu := upsertGuestUser db g
        if persistOk then
          let b : Booking :=
            { id := gu.2.nextBookingId, userId := gu.1.id, carId := carId,
              startDate := startDate, endDate := endDate,
              totalDays := totalDays, totalAmount := totalAmount,
              status := Status.pending, isGuestBooking := true }
          (Except.ok b,
           { gu.2 with bookings := gu.2.bookings ++ [b],
                       nextBookingId := gu.2.nextBookingId + 1 })
        else (Except.error ApiError.serverError, gu.2)

/-- The response body of GET /api/cars/:id/availability. -/
structure AvailabilityResult where
  available : Bool
  conflictingDates : List (Int × Int)
deriving DecidableEq

/-- GET /api/cars/:id/availability (`src/unnamed/part_000` lines 307-362):
car lookup, conflict query with statuses `['confirmed', 'active']`, then
`available = conflictingBookings.length === 0 && car.isAvailable` and the
conflicting ranges mapped to their start/end dates. -/
def checkAvailability (db : DB) (carId : Nat) (startDate endDate : Int) :
    Except ApiError AvailabilityResult :=
  match findCar db carId with
  | none => Except.error ApiError.carNotFound
  | some car =>
    let conflicts := findConflicting db carId blockingAuth startDate endDate
    Except.ok
      { available := conflicts.isEmpty && car.isAvailable,
        conflictingDates := conflicts.map fun b => (b.startDate, b.endDate) }

/-- The `body('status').isIn([...])` validator of
PUT /api/admin/bookings/:id/status (`src/unnamed/part_000` line 102). -/
def parseStatus : String → Option Status
  | "pending" => some Status.pending
  | "confirmed" => some Status.confirmed
  | "active" => some Status.active
  | "completed" => some Status.completed
  | "cancelled" => some Status.cancelled
  | _ => none

/-- PUT /api/admin/bookings/:id/status (`src/unnamed/part_000` lines 101-139):
validate the status string against the enum, then
`Booking.findByIdAndUpdate(id, { status }, { new: true })`; a null result is
the 404, otherwise the updated document is returned. -/
def updateBookingStatus (db : DB) (bookingId : Nat) (statusStr : String) :
    Except ApiError Booking × DB :=
  match parseStatus statusStr with
  | none => (Except.error ApiError.validationFailed, db)
  | some st =>
    match db.bookings.find? (fun b => b.id == bookingId) with
    | none => (Except.error ApiError.bookingNotFound, db)
    | some b =>
      let b2 : Booking := { b with status := st }
      (Except.ok b2,
       { db with bookings := db.bookings.map fun x => if x.id == bookingId then b2 else x })

/-- Days from the civil epoch 1970-01-01 for a Gregorian date, the value
`new Date("YYYY-MM-DD")` divides out of its timestamp (midnight UTC). -/
def daysFromCivil (y m d : Int) : Int :=
  let y2 := if m ≤ 2 then y - 1 else y
  let era := Int.ediv y2 400
  let yoe := y2 - era * 400
  let mp := if m > 2 then m - 3 else m + 9
  let doy := Int.ediv (153 * mp + 2) 5 + d - 1
  let doe := yoe * 365 + Int.ediv yoe 4 - Int.ediv yoe 100 + doy
  era * 146097 + doe - 719468

/-- Epoch milliseconds of `new Date("YYYY-MM-DD")` (midnight UTC). -/
def dateUTC (y m d : Int) : Int := daysFromCivil y m d * msPerDay

/-- Whether a handler result is one of the two date-validation errors the
spec groups as `InvalidDateRange`. -/
def resultInvalidDateRange : Except ApiError Booking → Bool
  | Except.error ApiError.startNotFuture => true
  | Except.error ApiError.endNotAfterStart => true
  | _ => false

/-- Number of guest-identity records (`isGuest = true`) with a given email. -/
def guestCount (db : DB) (email : String) : Nat :=
  (db.users.filter fun u => u.email == email && u.isGuest).length

/-! Concrete sample data for witness theorems and counterexamples. -/

/-- An available car priced 50/day. -/
def car50 : Car := { id := 1, pricePerDay := 50, isAvailable := true }

/-- A car whose admin availability toggle is off. -/
def carOff : Car := { id := 2, pricePerDay := 30, isAvailable := false }

/-- A cancelled booking of car 1 over `[100, 200]`. -/
def bkCancelled : Booking :=
  { id := 11, userId := 3, carId := 1, startDate := 100, endDate := 200,
    totalDays := 1, totalAmount := 50, status := Status.cancelled,
    isGuestBooking := false }

/-- A confirmed booking of car 1 over `[100, 200]`. -/
def bkConfirmed : Booking :=
  { id := 12, userId := 3, carId := 1, startDate := 100, endDate := 200,
    totalDays := 1, totalAmount := 50, status := Status.confirmed,
    isGuestBooking := false }

/-- A confirmed booking of car 2 over `[100, 200]`. -/
def bkConfOff : Booking :=
  { id := 13, userId := 3, carId := 2, startDate := 100, endDate := 200,
    totalDays := 1, totalAmount := 30, status := Status.confirmed,
    isGuestBooking := false }

/-- Store with one available car and no bookings. -/
def db0 : DB :=
  { cars := [car50], users := [], bookings := [], nextUserId := 1, nextBookingId := 1 }

/-- Store with one available car and one cancelled booking on it. -/
def dbCancelled : DB :=
  { cars := [car50], users := [], bookings := [bkCancelled],
    nextUserId := 1, nextBookingId := 14 }

/-- Store with one available car and one confirmed booking on it. -/
def dbConfirmed : DB :=
  { cars := [car50], users := [], bookings := [bkConfirmed],
    nextUserId := 1, nextBookingId := 14 }

/-- Store with an unavailable car that also has a confirmed booking. -/
def dbOff : DB :=
  { cars := [carOff], users := [], bookings := [bkConfOff],
    nextUserId := 1, nextBookingId := 14 }

/-- The booking created by `createBooking` on `db0` for
2099-01-10 .. 2099-01-13 at 50/day: 3 days, 150 total. -/
def bk2099 : Booking :=
  { id := 1, userId := 7, carId := 1, startDate := dateUTC 2099 1 10,
    endDate := dateUTC 2099 1 13, totalDays := 3, totalAmount := 150,
    status := Status.pending, isGuestBooking := false }

/-- A guest-info block. -/
def gA : GuestInfo := { name := "Ann", email := "ann@example.com", phone := "555" }

/-- A second guest-info block with the same email and different name/phone. -/
def gB : GuestInfo := { name := "Annie", email := "ann@example.com", phone := "777" }

/-- The booking the first authenticated call on `db0` creates for
`[100, 200]`. -/
def bkAuth1 : Booking :=
  { id := 1, userId := 7, carId := 1, startDate := 100, endDate := 200,
    totalDays := 1, totalAmount := 50, status := Status.pending,
    isGuestBooking := false }

/-- The booking the second, identically-dated authenticated call creates. -/
def bkAuth2 : Booking :=
  { id := 2, userId := 8, carId := 1, startDate := 100, endDate := 200,
    totalDays := 1, totalAmount := 50, status := Status.pending,
    isGuestBooking := false }

/-- The guest identity the first guest booking with `gA` creates on `db0`. -/
def guestUserA : User :=
  { id := 1, name := "Ann", email := "ann@example.com", phone := "555",
    isGuest := true }

/-- The booking the first guest call on `db0` creates for `[100, 200]`. -/
def bkGuestA : Booking :=
  { id := 1, userId := 1, carId := 1, startDate := 100, endDate := 200,
    totalDays := 1, totalAmount := 50, status := Status.pending,
    isGuestBooking := true }

/-- The store after the first guest booking with `gA` on `db0`. -/
def dbAfterGuestA : DB :=
  { cars := [car50], users := [guestUserA], bookings := [bkGuestA],
    nextUserId := 2, nextBookingId := 2 }

/-! Helper lemmas: branch-by-branch evaluation of the two create handlers. -/

theorem upsertGuestUser_cars (db : DB) (g : GuestInfo) :
    (upsertGuestUser db g).2.cars = db.cars := by
  unfold upsertGuestUser
  cases db.users.find? (fun u => u.email == g.email && u.isGuest) <;> rfl

theorem upsertGuestUser_bookings (db : DB) (g : GuestInfo) :
    (upsertGuestUser db g).2.bookings = db.bookings := by
  unfold upsertGuestUser
  cases db.users.find? (fun u => u.email == g.email && u.isGuest) <;> rfl

theorem upsertGuestUser_nextBookingId (db : DB) (g : GuestInfo) :
    (upsertGuestUser db g).2.nextBookingId = db.nextBookingId := by
  unfold upsertGuestUser
  cases db.users.find? (fun u => u.email == g.email && u.isGuest) <;> rfl

theorem upsertGuestUser_none {db : DB} {g : GuestInfo}
    (h : db.users.find? (fun u => u.email == g.email && u.isGuest) = none) :
    upsertGuestUser db g =
      ({ id := db.nextUserId, name := g.name, email := g.email,
         phone := g.phone, isGuest := true },
       { db with
         users := db.users ++
           [{ id := db.nextUserId, name := g.name, email := g.email,
              phone := g.phone, isGuest := true }],
         nextUserId := db.nextUserId + 1 }) := by
  unfold upsertGuestUser
  rw [h]

theorem upsertGuestUser_some {db : DB} {g : GuestInfo} {u : User}
    (h : db.users.find? (fun v => v.email == g.email && v.isGuest) = some u) :
    upsertGuestUser db g =
      ({ u with name := g.name, phone := g.phone },
       { db with users := db.users.map (fun v => if v.id == u.id then { u with name := g.name, phone := g.phone } else v) }) := by
  unfold upsertGuestUser
  rw [h]

theorem guestCount_zero_of_find_none {db : DB} {g : GuestInfo}
    (h : db.users.find? (fun u => u.email == g.email && u.isGuest) = none) :
    guestCount db g.email = 0 := by
  unfold guestCount
  rw [List.length_eq_zero]
  rw [List.find?_eq_none] at h
  exact List.filter_eq_nil_iff.mpr h

theorem guestCount_upsert_new {db : DB} {g : GuestInfo}
    (h : db.users.find? (fun u => u.email == g.email && u.isGuest) = none) :
    guestCount (upsertGuestUser db g).2 g.email = guestCount db g.email + 1 := by
  rw [upsertGuestUser_none h]
  unfold guestCount
  rw [List.filter_append]
  simp

theorem length_filter_map_congr {α : Type} (f : α → α) (p : α → Bool) :
    ∀ l : List α, (∀ v ∈ l, p (f v) = p v) →
      ((l.map f).filter p).length = (l.filter p).length := by
  intro l
  induction l with
  | nil => intro _; rfl
  | cons hd tl ih =>
    intro h
    have hhd : p (f hd) = p hd := h hd (by simp)
    have htl : ∀ v ∈ tl, p (f v) = p v := fun v hv => h v (by simp [hv])
    simp only [List.map_cons, List.filter_cons, hhd]
    cases hph : p hd with
    | true => simp [ih htl]
    | false => simp [ih htl]

theorem guestCount_upsert_existing {db : DB} {g : GuestInfo} {u : User}
    (hids : (db.users.map User.id).Nodup)
    (h : db.users.find? (fun v => v.email == g.email && v.isGuest) = some u) :
    guestCount (upsertGuestUser db g).2 g.email = guestCount db g.email := by
  rw [upsertGuestUser_some h]
  unfold guestCount
  apply length_filter_map_congr
  intro v hv
  by_cases hvid : (v.id == u.id) = true
  · have hmem : u ∈ db.users := List.mem_of_find?_eq_some h
    have hvu : v = u :=
      List.inj_on_of_nodup_map hids hv hmem (beq_iff_eq.mp hvid)
    subst hvu
    rw [if_pos hvid]
  · rw [if_neg hvid]

theorem guestCount_upsert_le {db : DB} {g : GuestInfo}
    (hids : (db.users.map User.id).Nodup)
    (hle : guestCount db g.email ≤ 1) :
    guestCount (upsertGuestUser db g).2 g.email ≤ 1 := by
  cases hfind : db.users.find? (fun u => u.email == g.email && u.isGuest) with
  | none =>
    rw [guestCount_upsert_new hfind, guestCount_zero_of_find_none hfind]
  | some u =>
    rw [guestCount_upsert_existing hids hfind]
    exact hle

theorem createBooking_run_startNotFuture {db : DB} {userId carId : Nat}
    {s e now : Int} {pOk : Bool} (h1 : s ≤ now) :
    createBooking db userId carId s e now pOk =
      (Except.error ApiError.startNotFuture, db) := by
  unfold createBooking
  rw [if_pos h1]

theorem createBooking_run_endNotAfterStart {db : DB} {userId carId : Nat}
    {s e now : Int} {pOk : Bool} (h1 : ¬s ≤ now) (h2 : e ≤ s) :
    createBooking db userId carId s e now pOk =
      (Except.error ApiError.endNotAfterStart, db) := by
  unfold createBooking
  rw [if_neg h1, if_pos h2]

theorem createBooking_run_carNotFound {db : DB} {userId carId : Nat}
    {s e now : Int} {pOk : Bool} (h1 : ¬s ≤ now) (h2 : ¬e ≤ s)
    (hc : findCar db carId = none) :
    createBooking db userId carId s e now pOk =
      (Except.error ApiError.carNotFound, db) := by
  unfold createBooking
  rw [if_neg h1, if_neg h2, hc]

theorem createBooking_run_carNotAvailable {db : DB} {userId carId : Nat}
    {s e now : Int} {pOk : Bool} {car : Car} (h1 : ¬s ≤ now) (h2 : ¬e ≤ s)
    (hc : findCar db carId = some car) (hav : car.isAvailable = false) :
    createBooking db userId carId s e now pOk =
      (Except.error ApiError.carNotAvailable, db) := by
  unfold createBooking
  rw [if_neg h1, if_neg h2, hc]
  simp [hav]

theorem createBooking_run_conflict {db : DB} {userId carId : Nat}
    {s e now : Int} {pOk : Bool} {car : Car} (h1 : ¬s ≤ now) (h2 : ¬e ≤ s)
    (hc : findCar db carId = some car) (hav : car.isAvailable = true)
    (hcf : (findConflicting db carId blockingAuth s e).length > 0) :
    createBooking db userId carId s e now pOk =
      (Except.error ApiError.datesConflict, db) := by
  unfold createBooking
  rw [if_neg h1, if_neg h2, hc]
  simp [hav, hcf]

theorem createBooking_run_persistFail {db : DB} {userId carId : Nat}
    {s e now : Int} {car : Car} (h1 : ¬s ≤ now) (h2 : ¬e ≤ s)
    (hc : findCar db carId = some car) (hav : car.isAvailable = true)
    (hcf : findConflicting db carId blockingAuth s e = []) :
    createBooking db userId carId s e now false =
      (Except.error ApiError.serverError, db) := by
  unfold createBooking
  rw [if_neg h1, if_neg h2, hc, hcf]
  simp [hav]

theorem createBooking_run_ok {db : DB} {userId carId : Nat}
    {s e now : Int} {car : Car} (h1 : ¬s ≤ now) (h2 : ¬e ≤ s)
    (hc : findCar db carId = some car) (hav : car.isAvailable = true)
    (hcf : findConflicting db carId blockingAuth s e = []) :
    createBooking db userId carId s e now true =
      (Except.ok
        { id := db.nextBookingId, userId := userId, carId := carId,
          startDate := s, endDate := e,
          totalDays := jsCeilDiv (e - s) msPerDay,
          totalAmount := jsCeilDiv (e - s) msPerDay * car.pricePerDay,
          status := Status.pending, isGuestBooking := false },
       { db with
         bookings := db.bookings ++
           [{ id := db.nextBookingId, userId := userId, carId := carId,
              startDate := s, endDate := e,
              totalDays := jsCeilDiv (e - s) msPerDay,
              totalAmount := jsCeilDiv (e - s) msPerDay * car.pricePerDay,
              status := Status.pending, isGuestBooking := false }],
         nextBookingId := db.nextBookingId + 1 }) := by
  unfold createBooking
  rw [if_neg h1, if_neg h2, hc, hcf]
  simp [hav]

theorem createGuestBooking_run_startNotFuture {db : DB} {carId : Nat}
    {s e now : Int} {g : GuestInfo} {pOk : Bool} (h1 : s ≤ now) :
    createGuestBooking db carId s e now g pOk =
      (Except.error ApiError.startNotFuture, db) := by
  unfold createGuestBooking
  rw [if_pos h1]

theorem createGuestBooking_run_endNotAfterStart {db : DB} {carId : Nat}
    {s e now : Int} {g : GuestInfo} {pOk : Bool} (h1 : ¬s ≤ now) (h2 : e ≤ s) :
    createGuestBooking db carId s e now g pOk =
      (Except.error ApiError.endNotAfterStart, db) := by
  unfold createGuestBooking
  rw [if_neg h1, if_pos h2]

theorem createGuestBooking_run_carNotFound {db : DB} {carId : Nat}
    {s e now : Int} {g : GuestInfo} {pOk : Bool} (h1 : ¬s ≤ now) (h2 : ¬e ≤ s)
    (hc : findCar db carId = none) :
    createGuestBooking db carId s e now g pOk =
      (Except.error ApiError.carNotFound, db) := by
  unfold createGuestBooking
  rw [if_neg h1, if_neg h2, hc]

theorem createGuestBooking_run_carNotAvailable {db : DB} {carId : Nat}
    {s e now : Int} {g : GuestInfo} {pOk : Bool} {car : Car}
    (h1 : ¬s ≤ now) (h2 : ¬e ≤ s)
    (hc : findCar db carId = some car) (hav : car.isAvailable = false) :
    createGuestBooking db carId s e now g pOk =
      (Except.error ApiError.carNotAvailable, db) := by
  unfold createGuestBooking
  rw [if_neg h1, if_neg h2, hc]
  simp [hav]

theorem createGuestBooking_run_conflict {db : DB} {carId : Nat}
    {s e now : Int} {g : GuestInfo} {pOk : Bool} {car : Car}
    (h1 : ¬s ≤ now) (h2 : ¬e ≤ s)
    (hc : findCar db carId = some car) (hav : car.isAvailable = true)
    (hcf : (findConflicting db carId blockingGuest s e).length > 0) :
    createGuestBooking db carId s e now g pOk =
      (Except.error ApiError.datesConflict, db) := by
  unfold createGuestBooking
  rw [if_neg h1, if_neg h2, hc]
  simp [hav, hcf]

theorem createGuestBooking_run_persistFail {db : DB} {carId : Nat}
    {s e now : Int} {g : GuestInfo} {car : Car} (h1 : ¬s ≤ now) (h2 : ¬e ≤ s)
    (hc : findCar db carId = some car) (hav : car.isAvailable = true)
    (hcf : findConflicting db carId blockingGuest s e = []) :
    createGuestBooking db carId s e now g false =
      (Except.error ApiError.serverError, (upsertGuestUser db g).2) := by
  unfold createGuestBooking
  rw [if_neg h1, if_neg h2, hc, hcf]
  simp [hav]

theorem createGuestBooking_run_ok {db : DB} {carId : Nat}
    {s e now : Int} {g : GuestInfo} {car : Car} (h1 : ¬s ≤ now) (h2 : ¬e ≤ s)
    (hc : findCar db carId = some car) (hav : car.isAvailable = true)
    (hcf : findConflicting db carId blockingGuest s e = []) :
    createGuestBooking db carId s e now g true =
      (Except.ok
        { id := (upsertGuestUser db g).2.nextBookingId,
          userId := (upsertGuestUser db g).1.id, carId := carId,
          startDate := s, endDate := e,
          totalDays := jsCeilDiv (e - s) msPerDay,
          totalAmount := jsCeilDiv (e - s) msPerDay * car.pricePerDay,
          status := Status.pending, isGuestBooking := true },
       { (upsertGuestUser db g).2 with
         bookings := (upsertGuestUser db g).2.bookings ++
           [{ id := (upsertGuestUser db g).2.nextBookingId,
              userId := (upsertGuestUser db g).1.id, carId := carId,
              startDate := s, endDate := e,
              totalDays := jsCeilDiv (e - s) msPerDay,
              totalAmount := jsCeilDiv (e - s) msPerDay * car.pricePerDay,
              status := Status.pending, isGuestBooking := true }],
         nextBookingId := (upsertGuestUser db g).2.nextBookingId + 1 }) := by
  unfold createGuestBooking
  rw [if_neg h1, if_neg h2, hc, hcf]
  simp [hav]

theorem createBooking_ok_inv {db : DB} {userId carId : Nat} {s e now : Int}
    {pOk : Bool} {b : Booking} {db2 : DB}
    (h : createBooking db userId carId s e now pOk = (Except.ok b, db2)) :
    now < s ∧ s < e ∧ pOk = true ∧
    ∃ car, findCar db carId = some car ∧ car.isAvailable = true ∧
      findConflicting db carId blockingAuth s e = [] ∧
      b = { id := db.nextBookingId, userId := userId, carId := carId,
            startDate := s, endDate := e,
            totalDays := jsCeilDiv (e - s) msPerDay,
            totalAmount := jsCeilDiv (e - s) msPerDay * car.pricePerDay,
            status := Status.pending, isGuestBooking := false } ∧
      db2 = { db with bookings := db.bookings ++ [b],
                      nextBookingId := db.nextBookingId + 1 } := by
  by_cases h1 : s ≤ now
  · rw [createBooking_run_startNotFuture h1] at h
    simp at h
  by_cases h2 : e ≤ s
  · rw [createBooking_run_endNotAfterStart h1 h2] at h
    simp at h
  cases hc : findCar db carId with
  | none =>
    rw [createBooking_run_carNotFound h1 h2 hc] at h
    simp at h
  | some car =>
    cases hav : car.isAvailable with
    | false =>
      rw [createBooking_run_carNotAvailable h1 h2 hc hav] at h
      simp at h
    | true =>
      by_cases hcf : (findConflicting db carId blockingAuth s e).length > 0
      · rw [createBooking_run_conflict h1 h2 hc hav hcf] at h
        simp at h
      have hnil : findConflicting db carId blockingAuth s e = [] :=
        List.length_eq_zero.mp (Nat.eq_zero_of_not_pos hcf)
      cases pOk with
      | false =>
        rw [createBooking_run_persistFail h1 h2 hc hav hnil] at h
        simp at h
      | true =>
        rw [createBooking_run_ok h1 h2 hc hav hnil] at h
        simp only [Prod.mk.injEq, Except.ok.injEq] at h
        obtain ⟨hb, hdb⟩ := h
        exact ⟨by omega, by omega, rfl, car, rfl, hav, hnil, hb.symm,
               by rw [← hdb, hb]⟩

theorem createGuestBooking_ok_inv {db : DB} {carId : Nat} {s e now : Int}
    {g : GuestInfo} {pOk : Bool} {b : Booking} {db2 : DB}
    (h : createGuestBooking db carId s e now g pOk = (Except.ok b, db2)) :
    now < s ∧ s < e ∧ pOk = true ∧
    ∃ car, findCar db carId = some car ∧ car.isAvailable = true ∧
      findConflicting db carId blockingGuest s e = [] ∧
      b = { id := (upsertGuestUser db g).2.nextBookingId,
            userId := (upsertGuestUser db g).1.id, carId := carId,
            startDate := s, endDate := e,
            totalDays := jsCeilDiv (e - s) msPerDay,
            totalAmount := jsCeilDiv (e - s) msPerDay * car.pricePerDay,
            status := Status.pending, isGuestBooking := true } ∧
      db2 = { (upsertGuestUser db g).2 with
              bookings := (upsertGuestUser db g).2.bookings ++ [b],
              nextBookingId := (upsertGuestUser db g).2.nextBookingId + 1 } := by
  by_cases h1 : s ≤ now
  · rw [createGuestBooking_run_startNotFuture h1] at h
    simp at h
  by_cases h2 : e ≤ s
  · rw [createGuestBooking_run_endNotAfterStart h1 h2] at h
    simp at h
  cases hc : findCar db carId with
  | none =>
    rw [createGuestBooking_run_carNotFound h1 h2 hc] at h
    simp at h
  | some car =>
    cases hav : car.isAvailable with
    | false =>
      rw [createGuestBooking_run_carNotAvailable h1 h2 hc hav] at h
      simp at h
    | true =>
      by_cases hcf : (findConflicting db carId blockingGuest s e).length > 0
      · rw [createGuestBooking_run_conflict h1 h2 hc hav hcf] at h
        simp at h
      have hnil : findConflicting db carId blockingGuest s e = [] :=
        List.length_eq_zero.mp (Nat.eq_zero_of_not_pos hcf)
      cases pOk with
      | false =>
        rw [createGuestBooking_run_persistFail h1 h2 hc hav hnil] at h
        simp at h
      | true =>
        rw [createGuestBooking_run_ok h1 h2 hc hav hnil] at h
        simp only [Prod.mk.injEq, Except.ok.injEq] at h
        obtain ⟨hb, hdb⟩ := h
        exact ⟨by omega, by omega, rfl, car, rfl, hav, hnil, hb.symm,
               by rw [← hdb, hb]⟩

theorem createBooking_cases (db : DB) (userId carId : Nat) (s e now : Int)
    (pOk : Bool) :
    (∃ err, createBooking db userId carId s e now pOk = (Except.error err, db)) ∨
    (∃ b, createBooking db userId carId s e now pOk =
      (Except.ok b, { db with bookings := db.bookings ++ [b],
                              nextBookingId := db.nextBookingId + 1 })) := by
  by_cases h1 : s ≤ now
  · exact Or.inl ⟨_, createBooking_run_startNotFuture h1⟩
  by_cases h2 : e ≤ s
  · exact Or.inl ⟨_, createBooking_run_endNotAfterStart h1 h2⟩
  cases hc : findCar db carId with
  | none => exact Or.inl ⟨_, createBooking_run_carNotFound h1 h2 hc⟩
  | some car =>
    cases hav : car.isAvailable with
    | false => exact Or.inl ⟨_, createBooking_run_carNotAvailable h1 h2 hc hav⟩
    | true =>
      by_cases hcf : (findConflicting db carId blockingAuth s e).length > 0
      · exact Or.inl ⟨_, createBooking_run_conflict h1 h2 hc hav hcf⟩
      have hnil : findConflicting db carId blockingAuth s e = [] :=
        List.length_eq_zero.mp (Nat.eq_zero_of_not_pos hcf)
      cases pOk with
      | false => exact Or.inl ⟨_, createBooking_run_persistFail h1 h2 hc hav hnil⟩
      | true => exact Or.inr ⟨_, createBooking_run_ok h1 h2 hc hav hnil⟩

theorem createGuestBooking_cases (db : DB) (carId : Nat) (s e now : Int)
    (g : GuestInfo) (pOk : Bool) :
    (∃ err, createGuestBooking db carId s e now g pOk = (Except.error err, db)) ∨
    (createGuestBooking db carId s e now g pOk =
      (Except.error ApiError.serverError, (upsertGuestUser db g).2)) ∨
    (∃ b, createGuestBooking db carId s e now g pOk =
      (Except.ok b,
       { (upsertGuestUser db g).2 with
         bookings := (upsertGuestUser db g).2.bookings ++ [b],
         nextBookingId := (upsertGuestUser db g).2.nextBookingId + 1 })) := by
  by_cases h1 : s ≤ now
  · exact Or.inl ⟨_, createGuestBooking_run_startNotFuture h1⟩
  by_cases h2 : e ≤ s
  · exact Or.inl ⟨_, createGuestBooking_run_endNotAfterStart h1 h2⟩
  cases hc : findCar db carId with
  | none => exact Or.inl ⟨_, createGuestBooking_run_carNotFound h1 h2 hc⟩
  | some car =>
    cases hav : car.isAvailable with
    | false => exact Or.inl ⟨_, createGuestBooking_run_carNotAvailable h1 h2 hc hav⟩
    | true =>
      by_cases hcf : (findConflicting db carId blockingGuest s e).length > 0
      · exact Or.inl ⟨_, createGuestBooking_run_conflict h1 h2 hc hav hcf⟩
      have hnil : findConflicting db carId blockingGuest s e = [] :=
        List.length_eq_zero.mp (Nat.eq_zero_of_not_pos hcf)
      cases pOk with
      | false =>
        exact Or.inr (Or.inl (createGuestBooking_run_persistFail h1 h2 hc hav hnil))
      | true => exact Or.inr (Or.inr ⟨_, createGuestBooking_run_ok h1 h2 hc hav hnil⟩)

/-! Theorems. -/

/-- C1: the overlap test used by conflict detection reports a conflict iff
`s1 ≤ e2 AND e1 ≥ s2`; in particular two ranges that touch exactly at a
boundary (`e1 = s2` or `e2 = s1`) count as conflicting. -/
theorem overlap_test_characterization :
    (∀ s1 e1 s2 e2 : Int, overlaps s1 e1 s2 e2 = true ↔ (s1 ≤ e2 ∧ e1 ≥ s2)) ∧
    (∀ s1 e1 s2 e2 : Int, s1 ≤ e1 → s2 ≤ e2 → (e1 = s2 ∨ e2 = s1) →
      overlaps s1 e1 s2 e2 = true) := by
  constructor
  · intro s1 e1 s2 e2
    simp [overlaps]
  · intro s1 e1 s2 e2 h1 h2 h3
    simp only [overlaps, Bool.and_eq_true, decide_eq_true_eq]
    omega

/-- Witness for C1: boundary-touching ranges at both boundaries conflict. -/
theorem overlap_test_characterization_witness :
    overlaps 0 5 5 9 = true ∧ overlaps 3 7 0 3 = true :=
  ⟨overlap_test_characterization.2 0 5 5 9 (by decide) (by decide) (Or.inl rfl),
   overlap_test_characterization.2 3 7 0 3 (by decide) (by decide) (Or.inr rfl)⟩

/-- C2: the conflict query's blocking statuses are exactly
`{confirmed, active}` on the authenticated pathway and
`{pending, confirmed, active}` on the guest pathway; a cancelled or
completed reservation never blocks on either pathway. -/
theorem blocking_status_sets :
    ∀ (db : DB) (carId : Nat) (s e : Int) (b : Booking),
      (b ∈ findConflicting db carId blockingAuth s e ↔
        b ∈ db.bookings ∧ b.carId = carId ∧
          (b.status = Status.confirmed ∨ b.status = Status.active) ∧
          overlaps b.startDate b.endDate s e = true) ∧
      (b ∈ findConflicting db carId blockingGuest s e ↔
        b ∈ db.bookings ∧ b.carId = carId ∧
          (b.status = Status.pending ∨ b.status = Status.confirmed ∨
            b.status = Status.active) ∧
          overlaps b.startDate b.endDate s e = true) ∧
      ((b.status = Status.cancelled ∨ b.status = Status.completed) →
        b ∉ findConflicting db carId blockingAuth s e ∧
        b ∉ findConflicting db carId blockingGuest s e) := by
  intro db carId s e b
  have hA : b ∈ findConflicting db carId blockingAuth s e ↔
      b ∈ db.bookings ∧ b.carId = carId ∧
        (b.status = Status.confirmed ∨ b.status = Status.active) ∧
        overlaps b.startDate b.endDate s e = true := by
    simp [findConflicting, List.mem_filter, blockingAuth, and_assoc]
  have hG : b ∈ findConflicting db carId blockingGuest s e ↔
      b ∈ db.bookings ∧ b.carId = carId ∧
        (b.status = Status.pending ∨ b.status = Status.confirmed ∨
          b.status = Status.active) ∧
        overlaps b.startDate b.endDate s e = true := by
    simp [findConflicting, List.mem_filter, blockingGuest, and_assoc]
    tauto
  refine ⟨hA, hG, ?_⟩
  intro hbad
  have hstat : ¬(b.status = Status.confirmed ∨ b.status = Status.active) ∧
      ¬(b.status = Status.pending ∨ b.status = Status.confirmed ∨
        b.status = Status.active) := by
    rcases hbad with h2 | h2 <;> rw [h2] <;> simp
  exact ⟨fun hmem => absurd (hA.mp hmem).2.2.1 hstat.1,
         fun hmem => absurd (hG.mp hmem).2.2.1 hstat.2⟩

/-- Witness for C2: a cancelled booking covering the candidate range is not in
either conflict list. -/
theorem blocking_status_sets_witness :
    bkCancelled ∉ findConflicting dbCancelled 1 blockingAuth 100 200 ∧
    bkCancelled ∉ findConflicting dbCancelled 1 blockingGuest 100 200 :=
  (blocking_status_sets dbCancelled 1 100 200 bkCancelled).2.2 (Or.inl rfl)

/-- C4: on every successful reservation creation - authenticated
`createBooking` and guest `createGuestBooking` alike - the stored `totalDays`
is the ceiling of `(endDate - startDate) / 1 day` (characterized by its
bounds) and is at least 1, and `totalAmount = totalDays * car.pricePerDay`;
in particular 2099-01-10 .. 2099-01-13 at 50/day yields `totalDays = 3`,
`totalAmount = 150`. -/
theorem totals_correct :
    (∀ (db : DB) (userId carId : Nat) (s e now : Int) (pOk : Bool)
        (b : Booking) (db2 : DB) (car : Car),
      createBooking db userId carId s e now pOk = (Except.ok b, db2) →
      findCar db carId = some car →
      b.totalDays = jsCeilDiv (e - s) msPerDay ∧
      1 ≤ b.totalDays ∧
      (b.totalDays - 1) * msPerDay < e - s ∧
      e - s ≤ b.totalDays * msPerDay ∧
      b.totalAmount = b.totalDays * car.pricePerDay ∧
      b ∈ db2.bookings) ∧
    (∀ (db : DB) (carId : Nat) (s e now : Int) (g : GuestInfo) (pOk : Bool)
        (b : Booking) (db2 : DB) (car : Car),
      createGuestBooking db carId s e now g pOk = (Except.ok b, db2) →
      findCar db carId = some car →
      b.totalDays = jsCeilDiv (e - s) msPerDay ∧
      1 ≤ b.totalDays ∧
      (b.totalDays - 1) * msPerDay < e - s ∧
      e - s ≤ b.totalDays * msPerDay ∧
      b.totalAmount = b.totalDays * car.pricePerDay ∧
      b ∈ db2.bookings) ∧
    (createBooking db0 7 1 (dateUTC 2099 1 10) (dateUTC 2099 1 13) 0 true).1 =
      Except.ok bk2099 := by
  refine ⟨?_, ?_, rfl⟩
  · intro db userId carId s e now pOk b db2 car h hcar
    obtain ⟨hnow, hse, hpOk, car0, hc0, hav0, hnil0, hb, hdb⟩ := createBooking_ok_inv h
    rw [hcar] at hc0
    obtain rfl : car = car0 := Option.some.inj hc0
    subst hb
    subst hdb
    have hms : msPerDay = 86400000 := by norm_num [msPerDay]
    have hed : ∀ x : Int, Int.ediv x 86400000 = x / 86400000 := fun x => rfl
    refine ⟨rfl, ?_, ?_, ?_, rfl, by simp⟩ <;>
      simp only [jsCeilDiv, hms, hed] <;> omega
  · intro db carId s e now g pOk b db2 car h hcar
    obtain ⟨hnow, hse, hpOk, car0, hc0, hav0, hnil0, hb, hdb⟩ :=
      createGuestBooking_ok_inv h
    rw [hcar] at hc0
    obtain rfl : car = car0 := Option.some.inj hc0
    subst hb
    subst hdb
    have hms : msPerDay = 86400000 := by norm_num [msPerDay]
    have hed : ∀ x : Int, Int.ediv x 86400000 = x / 86400000 := fun x => rfl
    refine ⟨rfl, ?_, ?_, ?_, rfl, by simp⟩ <;>
      simp only [jsCeilDiv, hms, hed] <;> omega

/-- Witness for C4: the concrete 2099 authenticated scenario and the concrete
guest scenario on `db0` both satisfy the general parts. -/
theorem totals_correct_witness :
    (1 ≤ bk2099.totalDays ∧
     bk2099.totalAmount = bk2099.totalDays * car50.pricePerDay) ∧
    (1 ≤ bkGuestA.totalDays ∧
     bkGuestA.totalAmount = bkGuestA.totalDays * car50.pricePerDay) :=
  let h := totals_correct.1 db0 7 1 (dateUTC 2099 1 10) (dateUTC 2099 1 13) 0
    true bk2099 { db0 with bookings := [bk2099], nextBookingId := 2 } car50 rfl rfl
  let h2 := totals_correct.2.1 db0 1 100 200 0 gA true bkGuestA dbAfterGuestA
    car50 rfl rfl
  ⟨⟨h.2.1, h.2.2.2.2.1⟩, ⟨h2.2.1, h2.2.2.2.2.1⟩⟩

/-- C5: on both create pathways, `startDate ≤ now` or `endDate ≤ startDate`
yields an InvalidDateRange error (one of the two date-validation errors) and
leaves the store untouched; with a valid date range the call never returns an
InvalidDateRange error. -/
theorem date_validation :
    ∀ (db : DB) (userId carId : Nat) (s e now : Int) (g : GuestInfo) (pOk : Bool),
      ((s ≤ now ∨ e ≤ s) →
        resultInvalidDateRange (createBooking db userId carId s e now pOk).1 = true ∧
        (createBooking db userId carId s e now pOk).2 = db ∧
        resultInvalidDateRange (createGuestBooking db carId s e now g pOk).1 = true ∧
        (createGuestBooking db carId s e now g pOk).2 = db) ∧
      (now < s → s < e →
        resultInvalidDateRange (createBooking db userId carId s e now pOk).1 = false ∧
        resultInvalidDateRange (createGuestBooking db carId s e now g pOk).1 = false) := by
  intro db userId carId s e now g pOk
  constructor
  · intro hbad
    by_cases h1 : s ≤ now
    · rw [createBooking_run_startNotFuture h1, createGuestBooking_run_startNotFuture h1]
      exact ⟨rfl, rfl, rfl, rfl⟩
    · have h2 : e ≤ s := by
        rcases hbad with h | h
        · exact absurd h h1
        · exact h
      rw [createBooking_run_endNotAfterStart h1 h2,
          createGuestBooking_run_endNotAfterStart h1 h2]
      exact ⟨rfl, rfl, rfl, rfl⟩
  · intro hnow hse
    have h1 : ¬s ≤ now := by omega
    have h2 : ¬e ≤ s := by omega
    have hAuth : resultInvalidDateRange (createBooking db userId carId s e now pOk).1 = false := by
      cases hc : findCar db carId with
      | none => rw [createBooking_run_carNotFound h1 h2 hc]; rfl
      | some car =>
        cases hav : car.isAvailable with
        | false => rw [createBooking_run_carNotAvailable h1 h2 hc hav]; rfl
        | true =>
          by_cases hcf : (findConflicting db carId blockingAuth s e).length > 0
          · rw [createBooking_run_conflict h1 h2 hc hav hcf]; rfl
          · have hnil : findConflicting db carId blockingAuth s e = [] :=
              List.length_eq_zero.mp (Nat.eq_zero_of_not_pos hcf)
            cases pOk with
            | false => rw [createBooking_run_persistFail h1 h2 hc hav hnil]; rfl
            | true => rw [createBooking_run_ok h1 h2 hc hav hnil]; rfl
    have hGuest : resultInvalidDateRange (createGuestBooking db carId s e now g pOk).1 = false := by
      cases hc : findCar db carId with
      | none => rw [createGuestBooking_run_carNotFound h1 h2 hc]; rfl
      | some car =>
        cases hav : car.isAvailable with
        | false => rw [createGuestBooking_run_carNotAvailable h1 h2 hc hav]; rfl
        | true =>
          by_cases hcf : (findConflicting db carId blockingGuest s e).length > 0
          · rw [createGuestBooking_run_conflict h1 h2 hc hav hcf]; rfl
          · have hnil : findConflicting db carId blockingGuest s e = [] :=
              List.length_eq_zero.mp (Nat.eq_zero_of_not_pos hcf)
            cases pOk with
            | false => rw [createGuestBooking_run_persistFail h1 h2 hc hav hnil]; rfl
            | true => rw [createGuestBooking_run_ok h1 h2 hc hav hnil]; rfl
    exact ⟨hAuth, hGuest⟩

/-- Witness for C5: a start date equal to "now" is rejected as an
invalid-date-range error on both pathways, and valid dates pass date
validation on both pathways. -/
theorem date_validation_witness :
    (resultInvalidDateRange (createBooking db0 7 1 0 5 0 true).1 = true ∧
     resultInvalidDateRange (createGuestBooking db0 1 0 5 0 gA true).1 = true) ∧
    (resultInvalidDateRange (createBooking db0 7 1 100 200 0 true).1 = false ∧
     resultInvalidDateRange (createGuestBooking db0 1 100 200 0 gA true).1 = false) :=
  ⟨⟨((date_validation db0 7 1 0 5 0 gA true).1 (Or.inl (by decide))).1,
    ((date_validation db0 7 1 0 5 0 gA true).1 (Or.inl (by decide))).2.2.1⟩,
   (date_validation db0 7 1 100 200 0 gA true).2 (by decide) (by decide)⟩

/-- C9: whenever either create pathway returns an error, the reservation
store is unchanged: creation is all-or-nothing with respect to the booking
collection (the guest pathway may still have upserted the guest identity,
which lives in the user collection). -/
theorem creation_all_or_nothing :
    ∀ (db : DB) (userId carId : Nat) (s e now : Int) (g : GuestInfo)
      (pOk : Bool) (err1 err2 : ApiError),
      ((createBooking db userId carId s e now pOk).1 = Except.error err1 →
        (createBooking db userId carId s e now pOk).2.bookings = db.bookings) ∧
      ((createGuestBooking db carId s e now g pOk).1 = Except.error err2 →
        (createGuestBooking db carId s e now g pOk).2.bookings = db.bookings) := by
  intro db userId carId s e now g pOk err1 err2
  constructor
  · intro herr
    rcases createBooking_cases db userId carId s e now pOk with ⟨err, heq⟩ | ⟨b, heq⟩
    · rw [heq]
    · rw [heq] at herr
      simp at herr
  · intro herr
    rcases createGuestBooking_cases db carId s e now g pOk with
      ⟨err, heq⟩ | heq | ⟨b, heq⟩
    · rw [heq]
    · rw [heq]
      exact upsertGuestUser_bookings db g
    · rw [heq] at herr
      simp at herr

/-- Witness for C9: a rejected call (start date not in the future) leaves the
booking collection untouched on both pathways. -/
theorem creation_all_or_nothing_witness :
    (createBooking db0 7 1 0 5 0 true).2.bookings = db0.bookings ∧
    (createGuestBooking db0 1 0 5 0 gA true).2.bookings = db0.bookings :=
  ⟨(creation_all_or_nothing db0 7 1 0 5 0 gA true
      ApiError.startNotFuture ApiError.startNotFuture).1 rfl,
   (creation_all_or_nothing db0 7 1 0 5 0 gA true
      ApiError.startNotFuture ApiError.startNotFuture).2 rfl⟩

/-- C10: the checks of both create pathways run in a fixed priority order -
date validation, then car existence, then the car's availability flag, then
the overlap check - so the earliest violated check determines the error. -/
theorem check_priority_order :
    ∀ (db : DB) (userId carId : Nat) (s e now : Int) (g : GuestInfo) (pOk : Bool),
      (s ≤ now →
        (createBooking db userId carId s e now pOk).1 =
          Except.error ApiError.startNotFuture ∧
        (createGuestBooking db carId s e now g pOk).1 =
          Except.error ApiError.startNotFuture) ∧
      (now < s → e ≤ s →
        (createBooking db userId carId s e now pOk).1 =
          Except.error ApiError.endNotAfterStart ∧
        (createGuestBooking db carId s e now g pOk).1 =
          Except.error ApiError.endNotAfterStart) ∧
      (now < s → s < e → findCar db carId = none →
        (createBooking db userId carId s e now pOk).1 =
          Except.error ApiError.carNotFound ∧
        (createGuestBooking db carId s e now g pOk).1 =
          Except.error ApiError.carNotFound) ∧
      (∀ car, now < s → s < e → findCar db carId = some car →
        car.isAvailable = false →
        (createBooking db userId carId s e now pOk).1 =
          Except.error ApiError.carNotAvailable ∧
        (createGuestBooking db carId s e now g pOk).1 =
          Except.error ApiError.carNotAvailable) ∧
      (∀ car, now < s → s < e → findCar db carId = some car →
        car.isAvailable = true →
        (findConflicting db carId blockingAuth s e).length > 0 →
        (createBooking db userId carId s e now pOk).1 =
          Except.error ApiError.datesConflict) ∧
      (∀ car, now < s → s < e → findCar db carId = some car →
        car.isAvailable = true →
        (findConflicting db carId blockingGuest s e).length > 0 →
        (createGuestBooking db carId s e now g pOk).1 =
          Except.error ApiError.datesConflict) := by
  intro db userId carId s e now g pOk
  refine ⟨?_, ?_, ?_, ?_, ?_, ?_⟩
  · intro h1
    rw [createBooking_run_startNotFuture h1, createGuestBooking_run_startNotFuture h1]
    exact ⟨rfl, rfl⟩
  · intro hnow h2
    have h1 : ¬s ≤ now := by omega
    rw [createBooking_run_endNotAfterStart h1 h2,
        createGuestBooking_run_endNotAfterStart h1 h2]
    exact ⟨rfl, rfl⟩
  · intro hnow hse hc
    have h1 : ¬s ≤ now := by omega
    have h2 : ¬e ≤ s := by omega
    rw [createBooking_run_carNotFound h1 h2 hc,
        createGuestBooking_run_carNotFound h1 h2 hc]
    exact ⟨rfl, rfl⟩
  · intro car hnow hse hc hav
    have h1 : ¬s ≤ now := by omega
    have h2 : ¬e ≤ s := by omega
    rw [createBooking_run_carNotAvailable h1 h2 hc hav,
        createGuestBooking_run_carNotAvailable h1 h2 hc hav]
    exact ⟨rfl, rfl⟩
  · intro car hnow hse hc hav hcf
    have h1 : ¬s ≤ now := by omega
    have h2 : ¬e ≤ s := by omega
    rw [createBooking_run_conflict h1 h2 hc hav hcf]
  · intro car hnow hse hc hav hcf
    have h1 : ¬s ≤ now := by omega
    have h2 : ¬e ≤ s := by omega
    rw [createGuestBooking_run_conflict h1 h2 hc hav hcf]

/-- Witness for C10: an invalid date range on a nonexistent car yields the
date error, not NotFound; an unavailable car that also has a conflicting
confirmed booking yields the availability error, not the conflict error; a
conflicting confirmed booking on an available car yields the conflict
error. -/
theorem check_priority_order_witness :
    (createBooking db0 7 99 0 (-5) 0 true).1 =
      Except.error ApiError.startNotFuture ∧
    (createBooking dbOff 7 2 150 250 0 true).1 =
      Except.error ApiError.carNotAvailable ∧
    (createBooking dbConfirmed 7 1 150 250 0 true).1 =
      Except.error ApiError.datesConflict :=
  ⟨((check_priority_order db0 7 99 0 (-5) 0 gA true).1 (by decide)).1,
   ((check_priority_order dbOff 7 2 150 250 0 gA true).2.2.2.1 carOff
      (by decide) (by decide) (by decide) (by decide)).1,
   (check_priority_order dbConfirmed 7 1 150 250 0 gA true).2.2.2.2.1 car50
      (by decide) (by decide) (by decide) (by decide) (by decide)⟩

/-- C8: `setStatus` with a valid status string: on a missing reservation it
returns NotFound; on an existing one it always succeeds and the stored status
afterwards equals exactly the requested value. -/
theorem setStatus_unconditional :
    ∀ (db : DB) (bookingId : Nat) (str : String) (st : Status),
      parseStatus str = some st →
      (db.bookings.find? (fun b => b.id == bookingId) = none →
        updateBookingStatus db bookingId str = (Except.error ApiError.bookingNotFound, db)) ∧
      (∀ b, db.bookings.find? (fun b2 => b2.id == bookingId) = some b →
        (updateBookingStatus db bookingId str).1 = Except.ok { b with status := st } ∧
        ∀ x ∈ (updateBookingStatus db bookingId str).2.bookings,
          x.id = bookingId → x.status = st) := by
  intro db bookingId str st hps
  constructor
  · intro hnone
    unfold updateBookingStatus
    rw [hps, hnone]
  · intro b hsome
    have hrun : updateBookingStatus db bookingId str =
        (Except.ok { b with status := st },
         { db with bookings := db.bookings.map (fun x => if x.id == bookingId then { b with status := st } else x) }) := by
      unfold updateBookingStatus
      rw [hps, hsome]
    refine ⟨by rw [hrun], ?_⟩
    intro x hx hid
    rw [hrun] at hx
    simp only [List.mem_map] at hx
    obtain ⟨y, _, rfl⟩ := hx
    by_cases hy : (y.id == bookingId) = true
    · simp [hy]
    · rw [if_neg hy] at hid
      exact absurd (by simp [hid] : (y.id == bookingId) = true) hy

/-- C6: for an existing car, the availability check returns
`available = (conflicts empty) AND car.isAvailable` and the conflicting
dates are exactly the start/end ranges of the blocking-status bookings of
that car that overlap the candidate range. -/
theorem availability_result :
    ∀ (db : DB) (carId : Nat) (s e : Int) (car : Car),
      findCar db carId = some car →
      ∃ r, checkAvailability db carId s e = Except.ok r ∧
        (r.available = true ↔
          (findConflicting db carId blockingAuth s e = [] ∧
           car.isAvailable = true)) ∧
        r.conflictingDates =
          (findConflicting db carId blockingAuth s e).map
            (fun b => (b.startDate, b.endDate)) := by
  intro db carId s e car hc
  have hrun : checkAvailability db carId s e =
      Except.ok
        { available := (findConflicting db carId blockingAuth s e).isEmpty &&
            car.isAvailable,
          conflictingDates := (findConflicting db carId blockingAuth s e).map
            (fun b => (b.startDate, b.endDate)) } := by
    unfold checkAvailability
    rw [hc]
  refine ⟨_, hrun, ?_, rfl⟩
  simp [List.isEmpty_iff]

/-- Witness for C6: the availability check on the store holding only a
cancelled booking over the candidate range. -/
theorem availability_result_witness :
    ∃ r, checkAvailability dbCancelled 1 100 200 = Except.ok r ∧
      (r.available = true ↔
        (findConflicting dbCancelled 1 blockingAuth 100 200 = [] ∧
         car50.isAvailable = true)) ∧
      r.conflictingDates =
        (findConflicting dbCancelled 1 blockingAuth 100 200).map
          (fun b => (b.startDate, b.endDate)) :=
  availability_result dbCancelled 1 100 200 car50 rfl

/-- Counterexample for C3: two sequential authenticated `createBooking` calls
on car 1 of `db0` with the identical range `[100, 200]` both succeed - the
second returns a created booking, not the Conflict error the claim
requires, because the first booking's `pending` status is not in the
authenticated pathway's blocking set. -/
theorem seq_auth_counterexample :
    (createBooking db0 7 1 100 200 0 true).1 = Except.ok bkAuth1 ∧
    bkAuth1.status = Status.pending ∧
    (createBooking (createBooking db0 7 1 100 200 0 true).2 8 1 100 200 0 true).1 =
      Except.ok bkAuth2 ∧
    (createBooking (createBooking db0 7 1 100 200 0 true).2 8 1 100 200 0 true).1 ≠
      Except.error ApiError.datesConflict := by
  refine ⟨rfl, rfl, rfl, fun h => ?_⟩
  have h2 : (createBooking (createBooking db0 7 1 100 200 0 true).2 8 1 100 200 0 true).1 =
      Except.ok bkAuth2 := rfl
  exact Except.noConfusion (h2.symm.trans h)

theorem guest_conflict_after_append {db dbX : DB} {carId : Nat}
    {s e now : Int} {g : GuestInfo} {car : Car} {b : Booking}
    (hcars : dbX.cars = db.cars) (hbk : dbX.bookings = db.bookings ++ [b])
    (hc : findCar db carId = some car) (hnow : now < s) (hse : s < e)
    (hav : car.isAvailable = true)
    (hnil : findConflicting db carId blockingGuest s e = [])
    (hbcar : b.carId = carId) (hbst : b.status = Status.pending)
    (hbs : b.startDate = s) (hbe : b.endDate = e) :
    (createGuestBooking dbX carId s e now g true).1 =
      Except.error ApiError.datesConflict := by
  have h1 : ¬s ≤ now := by omega
  have h2 : ¬e ≤ s := by omega
  have hc2 : findCar dbX carId = some car := by
    unfold findCar at hc ⊢
    rw [hcars]
    exact hc
  have hcf : (findConflicting dbX carId blockingGuest s e).length > 0 := by
    unfold findConflicting at hnil ⊢
    rw [hbk, List.filter_append, hnil, List.nil_append]
    have hsle : s ≤ e := le_of_lt hse
    simp [hbcar, hbst, hbs, hbe, overlaps, blockingGuest, hsle]
  rw [createGuestBooking_run_conflict h1 h2 hc2 hav hcf]

/-- C3 (amended): on the guest pathway, two sequential `createGuestBooking`
calls for the same vehicle with an identical valid range behave as the claim
states: the first succeeds with status `pending` and the second returns the
Conflict error.  (On the authenticated pathway the second call succeeds
instead, since `pending` is not blocking there; see the counterexample.) -/
theorem seq_guest_first_pending_second_conflict :
    ∀ (db : DB) (carId : Nat) (s e now : Int) (g1 g2 : GuestInfo) (car : Car),
      findCar db carId = some car →
      now < s → s < e → car.isAvailable = true →
      findConflicting db carId blockingGuest s e = [] →
      ∃ b db2,
        createGuestBooking db carId s e now g1 true = (Except.ok b, db2) ∧
        b.status = Status.pending ∧
        (createGuestBooking db2 carId s e now g2 true).1 =
          Except.error ApiError.datesConflict := by
  intro db carId s e now g1 g2 car hc hnow hse hav hnil
  have h1 : ¬s ≤ now := by omega
  have h2 : ¬e ≤ s := by omega
  have hrun := createGuestBooking_run_ok (g := g1) h1 h2 hc hav hnil
  refine ⟨_, _, hrun, rfl, ?_⟩
  refine guest_conflict_after_append (b := { id := (upsertGuestUser db g1).2.nextBookingId, userId := (upsertGuestUser db g1).1.id, carId := carId, startDate := s, endDate := e, totalDays := jsCeilDiv (e - s) msPerDay, totalAmount := jsCeilDiv (e - s) msPerDay * car.pricePerDay, status := Status.pending, isGuestBooking := true }) ?_ ?_ hc hnow hse hav hnil rfl rfl rfl rfl
  · exact upsertGuestUser_cars db g1
  · show (upsertGuestUser db g1).2.bookings ++ _ = db.bookings ++ _
    rw [upsertGuestUser_bookings]

/-- Witness for C3 (amended): the concrete guest double-booking scenario on
`db0`. -/
theorem seq_guest_first_pending_second_conflict_witness :
    ∃ b db2,
      createGuestBooking db0 1 100 200 0 gA true = (Except.ok b, db2) ∧
      b.status = Status.pending ∧
      (createGuestBooking db2 1 100 200 0 gB true).1 =
        Except.error ApiError.datesConflict :=
  seq_guest_first_pending_second_conflict db0 1 100 200 0 gA gB car50
    rfl (by decide) (by decide) rfl rfl

/-- C7: guest-identity deduplication.  Assuming distinct user ids, (a) a
successful guest booking with an email that has no guest identity yet leaves
exactly one guest identity with that email; (b) a successful guest booking
whose email already has a guest identity reuses its id, updates its name and
phone in place, and creates no record; (c) no outcome of a guest booking call
ever pushes the number of guest identities for an email above one. -/
theorem guest_identity_dedup :
    ∀ (db : DB) (carId : Nat) (s e now : Int) (g : GuestInfo) (pOk : Bool),
      (db.users.map User.id).Nodup →
      ((db.users.find? (fun u => u.email == g.email && u.isGuest) = none →
        ∀ b db2, createGuestBooking db carId s e now g pOk = (Except.ok b, db2) →
          guestCount db2 g.email = 1) ∧
      (∀ u, db.users.find? (fun v => v.email == g.email && v.isGuest) = some u →
        ∀ b db2, createGuestBooking db carId s e now g pOk = (Except.ok b, db2) →
          b.userId = u.id ∧
          db2.users = db.users.map
            (fun v => if v.id == u.id then { u with name := g.name, phone := g.phone } else v) ∧
          guestCount db2 g.email = guestCount db g.email) ∧
      (guestCount db g.email ≤ 1 →
        guestCount (createGuestBooking db carId s e now g pOk).2 g.email ≤ 1)) := by
  intro db carId s e now g pOk hids
  refine ⟨?_, ?_, ?_⟩
  · intro hnone b db2 hok
    obtain ⟨_, _, _, car, _, _, _, _, hdb⟩ := createGuestBooking_ok_inv hok
    subst hdb
    have husers : guestCount
        { (upsertGuestUser db g).2 with
          bookings := (upsertGuestUser db g).2.bookings ++ [b],
          nextBookingId := (upsertGuestUser db g).2.nextBookingId + 1 } g.email =
        guestCount (upsertGuestUser db g).2 g.email := rfl
    rw [husers, guestCount_upsert_new hnone, guestCount_zero_of_find_none hnone]
  · intro u hu b db2 hok
    obtain ⟨_, _, _, car, _, _, _, hb, hdb⟩ := createGuestBooking_ok_inv hok
    subst hdb
    refine ⟨?_, ?_, ?_⟩
    · rw [hb]
      show (upsertGuestUser db g).1.id = u.id
      rw [upsertGuestUser_some hu]
    · show (upsertGuestUser db g).2.users = _
      rw [upsertGuestUser_some hu]
    · have husers : guestCount
          { (upsertGuestUser db g).2 with
            bookings := (upsertGuestUser db g).2.bookings ++ [b],
            nextBookingId := (upsertGuestUser db g).2.nextBookingId + 1 } g.email =
          guestCount (upsertGuestUser db g).2 g.email := rfl
      rw [husers, guestCount_upsert_existing hids hu]
  · intro hle
    rcases createGuestBooking_cases db carId s e now g pOk with
      ⟨err, heq⟩ | heq | ⟨b, heq⟩
    · rw [heq]
      exact hle
    · rw [heq]
      exact guestCount_upsert_le hids hle
    · rw [heq]
      exact guestCount_upsert_le hids hle

/-- Witness for C7: the first guest booking with a fresh email on `db0`
leaves exactly one guest identity with that email. -/
theorem guest_identity_dedup_witness :
    guestCount dbAfterGuestA gA.email = 1 :=
  ((guest_identity_dedup db0 1 100 200 0 gA true (by decide)).1 rfl
    bkGuestA dbAfterGuestA rfl)

/-- Witness for C8: overwriting a confirmed booking's status to cancelled
succeeds and stores exactly `cancelled`; a missing id returns NotFound. -/
theorem setStatus_unconditional_witness :
    (updateBookingStatus dbConfirmed 999 "cancelled" =
      (Except.error ApiError.bookingNotFound, dbConfirmed)) ∧
    (updateBookingStatus dbConfirmed 12 "cancelled").1 =
      Except.ok { bkConfirmed with status := Status.cancelled } :=
  ⟨(setStatus_unconditional dbConfirmed 999 "cancelled" Status.cancelled rfl).1 rfl,
   ((setStatus_unconditional dbConfirmed 12 "cancelled" Status.cancelled rfl).2
      bkConfirmed rfl).1⟩

end Milezup
